import Mathlib

/-!
Verification of the FileSyncer tracking core (src/file_tracker_core.py).

The Python core is shallowly embedded: Python values are an inductive
type, Python dicts are insertion-ordered association lists, the
filesystem (os.path.isfile / isdir / realpath / getsize / getmtime /
listdir / walk / relpath) is an explicit record of functions, and code
that can raise returns Except.  Definitions follow the source line by
line; theorems at the end settle the specification claims.
-/

set_option autoImplicit false

namespace FileSyncer

/-- Python exceptions that the tracking core can raise or catch. -/
inductive PyErr where
  | invalidPathError
  | valueError
  | jsonDecodeError
  | keyError
  | typeError
  | ioError
  | runtimeError
  deriving DecidableEq, Repr

/-- Python dict keys.  CPython dict keys must be hashable, so lists and
dicts never occur as keys; every key this program creates or parses
from JSON is a str (JSON object keys are strings), and the validator
additionally tests isinstance(k, str).  None, bool and int keys are
kept so that arbitrary caller-supplied dicts can be represented. -/
inductive PyKey where
  | knone
  | kbool (b : Bool)
  | kint (n : Int)
  | kstr (s : String)
  deriving DecidableEq, Repr

/-- Python values as stored in configuration documents.  Floating point
timestamps (st_mtime) are modelled by their exact numeric payload as an
integer; the core never computes with them, it only stores and compares
them.  Dicts are insertion-ordered association lists, mirroring CPython
dict semantics. -/
inductive PyVal where
  | pynone
  | pybool (b : Bool)
  | pyint (n : Int)
  | pystr (s : String)
  | pylist (xs : List PyVal)
  | pydict (entries : List (PyKey × PyVal))

/-- Configuration documents and tracked maps are Python dicts:
insertion-ordered association lists over Python keys and values. -/
abbrev PyDict := List (PyKey × PyVal)

namespace PyVal

/-- True when the value is a Python str (isinstance(v, str)). -/
def isStr : PyVal → Bool
  | .pystr _ => true
  | _ => false

/-- True when the value is a Python dict (isinstance(v, dict)). -/
def isDict : PyVal → Bool
  | .pydict _ => true
  | _ => false

end PyVal

/-- Lookup d[k] as an Option: first entry whose key equals k.  CPython
dicts have unique keys, so first-match is exact on well-formed dicts. -/
def dictLookup (d : PyDict) (k : PyKey) : Option PyVal :=
  match d with
  | [] => none
  | (k', v) :: rest => if k' = k then some v else dictLookup rest k

/-- Membership test, Python's (k in d). -/
def dictContains (d : PyDict) (k : PyKey) : Bool :=
  (dictLookup d k).isSome

/-- Assignment d[k] = v with CPython semantics: an existing key keeps
its position and gets the new value; a new key is appended at the end. -/
def dictSet (d : PyDict) (k : PyKey) (v : PyVal) : PyDict :=
  match d with
  | [] => [(k, v)]
  | (k', v') :: rest =>
      if k' = k then (k', v) :: rest else (k', v') :: dictSet rest k v

/-- Removal d.pop(k, None): drop the entry with key k when present. -/
def dictPop (d : PyDict) (k : PyKey) : PyDict :=
  match d with
  | [] => []
  | (k', v') :: rest =>
      if k' = k then rest else (k', v') :: dictPop rest k

/-- Keys of a dict in insertion order (list(d.keys())). -/
def dictKeys (d : PyDict) : List PyKey := d.map Prod.fst

/-- Build a dict from a pair sequence with CPython duplicate handling
(dict comprehension): later pairs overwrite earlier values in place. -/
def dictFromPairs (ps : List (PyKey × PyVal)) : PyDict :=
  ps.foldl (fun d kv => dictSet d kv.1 kv.2) []

/-- Merge update, Python's d.update(e): assign every entry of e into d
in order. -/
def dictUpdate (d e : PyDict) : PyDict :=
  e.foldl (fun acc kv => dictSet acc kv.1 kv.2) d

theorem dictSet_mem (d : PyDict) (k : PyKey) (v : PyVal) :
    ∀ e ∈ dictSet d k v, e ∈ d ∨ e = (k, v) := by
  induction d with
  | nil =>
      intro e he
      simp only [dictSet, List.mem_singleton] at he
      exact Or.inr he
  | cons hd tl ih =>
      intro e he
      obtain ⟨k', v'⟩ := hd
      by_cases hk : k' = k
      · simp only [dictSet, if_pos hk] at he
        rcases List.mem_cons.mp he with h | h
        · exact Or.inr (by rw [h, hk])
        · exact Or.inl (List.mem_cons_of_mem _ h)
      · simp only [dictSet, if_neg hk] at he
        rcases List.mem_cons.mp he with h | h
        · exact Or.inl (h ▸ List.mem_cons_self _ _)
        · rcases ih e h with h' | h'
          · exact Or.inl (List.mem_cons_of_mem _ h')
          · exact Or.inr h'

theorem dictPop_subset (d : PyDict) (k : PyKey) :
    ∀ e ∈ dictPop d k, e ∈ d := by
  induction d with
  | nil => intro e he; simp [dictPop] at he
  | cons hd tl ih =>
      intro e he
      obtain ⟨k', v'⟩ := hd
      by_cases hk : k' = k
      · simp only [dictPop, if_pos hk] at he
        exact List.mem_cons_of_mem _ he
      · simp only [dictPop, if_neg hk] at he
        rcases List.mem_cons.mp he with h | h
        · exact h ▸ List.mem_cons_self _ _
        · exact List.mem_cons_of_mem _ (ih e h)

theorem dictLookup_set_self (d : PyDict) (k : PyKey) (v : PyVal) :
    dictLookup (dictSet d k v) k = some v := by
  induction d with
  | nil => simp [dictSet, dictLookup]
  | cons hd tl ih =>
      obtain ⟨k', v'⟩ := hd
      by_cases hk : k' = k
      · simp [dictSet, dictLookup, hk]
      · simp [dictSet, dictLookup, hk, ih]

theorem dictSet_of_lookup_eq (d : PyDict) (k : PyKey) (v : PyVal)
    (h : dictLookup d k = some v) : dictSet d k v = d := by
  induction d with
  | nil => simp [dictLookup] at h
  | cons hd tl ih =>
      obtain ⟨k', v'⟩ := hd
      by_cases hk : k' = k
      · simp only [dictLookup, if_pos hk] at h
        simp [dictSet, hk, (Option.some.injEq _ _ ▸ h : v' = v)]
      · simp only [dictLookup, if_neg hk] at h
        simp [dictSet, hk, ih h]

theorem dictPop_of_not_contains (d : PyDict) (k : PyKey)
    (h : dictContains d k = false) : dictPop d k = d := by
  induction d with
  | nil => simp [dictPop]
  | cons hd tl ih =>
      obtain ⟨k', v'⟩ := hd
      by_cases hk : k' = k
      · simp [dictContains, dictLookup, hk] at h
      · simp only [dictContains, dictLookup, if_neg hk] at h
        simp [dictPop, hk, ih h]

/-! ## Filesystem model

The operating-system surface used by the core: existence tests,
canonicalization, metadata reads, directory enumeration.  Symlink
resolution and path canonicalization (os.path.realpath) are opaque OS
behaviour, so they are fields of the model; all path string
manipulation done by the library itself (basename, commonpath, join)
is implemented concretely below. -/

structure FS where
  isfile : String → Bool
  isdir : String → Bool
  realpath : String → String
  abspath : String → String
  size : String → Int
  mtime : String → Int
  listdir : String → List String
  walk : String → List (String × List String)
  relpath : String → String → Option String

/-- OSManager.get_abspath: returns the canonical absolute form of a
path that refers to an existing regular file or directory; otherwise
returns the path unchanged when return_path is set, and raises
InvalidPathError when it is not.  The isinstance(path, str) guard of
the source is vacuous here because the embedding is typed. -/
def get_abspath (fs : FS) (path : String) (return_path : Bool)
    (force_real_path : Bool) : Except PyErr String :=
  if fs.isfile path || fs.isdir path then
    .ok (if force_real_path then fs.realpath path else fs.abspath path)
  else if return_path then .ok path
  else .error .invalidPathError

/-- Normalization applied by the OSManager.format_abspath decorator to
each string argument: get_abspath(val, return_path=True) when val is an
existing file or directory, the argument unchanged otherwise. -/
def format_abspath_normalize (fs : FS) (val : String) : String :=
  if fs.isfile val || fs.isdir val then fs.realpath val else val

/-- OSManager.get_rel_path: os.path.relpath, with a ValueError
(incompatible drives) turned into the empty string. -/
def get_rel_path (fs : FS) (path root : String) : String :=
  (fs.relpath path root).getD ""

/-- Split of a character list at every separator, the str.split("/")
of CPython (implemented on the character list so that it computes by
structural recursion). -/
def splitSlashAux : List Char → List Char → List String
  | [], acc => [String.mk acc.reverse]
  | c :: rest, acc =>
      if c = '/' then String.mk acc.reverse :: splitSlashAux rest []
      else splitSlashAux rest (c :: acc)

/-- Path components as used by posixpath.commonpath: split on the
separator, dropping empty components and single dots. -/
def splitComponents (p : String) : List String :=
  (splitSlashAux p.data []).filter (fun c => c ≠ "" && c ≠ ".")

/-- True when the path string is absolute (starts with the separator). -/
def pathIsAbs (p : String) : Bool :=
  match p.data with
  | [] => false
  | c :: _ => c == '/'

/-- Longest common prefix of two component lists. -/
def commonPrefixComponents : List String → List String → List String
  | x :: xs, y :: ys => if x = y then x :: commonPrefixComponents xs ys else []
  | _, _ => []

/-- os.path.commonpath on a two-element list: raises ValueError when
one path is absolute and the other is not (the cross-drive failure on
Windows is the same except branch), otherwise joins the common leading
components.  For two paths the min/max comparison of the CPython
source computes exactly the longest common component prefix. -/
def commonpath2 (a b : String) : Except PyErr String :=
  if pathIsAbs a = pathIsAbs b then
    .ok ((if pathIsAbs a then "/" else "")
      ++ String.intercalate "/" (commonPrefixComponents (splitComponents a) (splitComponents b)))
  else .error .valueError

/-- FileInfoCollector.is_outside_root: canonicalize both arguments with
get_abspath (raising InvalidPathError when either does not exist), then
compare the common ancestor with the canonical root; only a ValueError
from commonpath is caught and turned into True. -/
def is_outside_root (fs : FS) (path root : String) : Except PyErr Bool := do
  let abs_path ← get_abspath fs path false true
  let abs_root ← get_abspath fs root false true
  match commonpath2 abs_path abs_root with
  | .ok common => .ok (common ≠ abs_root)
  | .error _ => .ok true

/-- One tracked-file record as built by FileInfoCollector.get_file_info. -/
structure FileInfo where
  path : String
  rel_path : String
  size : Int
  mtime : Int
  outside_root : Bool
  deriving DecidableEq, Repr

/-- Serialization of a record to the Python dict stored in the
document, in the field order of the source dict literal. -/
def FileInfo.toPy (i : FileInfo) : PyVal :=
  .pydict [(.kstr "path", .pystr i.path), (.kstr "rel_path", .pystr i.rel_path),
           (.kstr "size", .pyint i.size), (.kstr "mtime", .pyint i.mtime),
           (.kstr "outside_root", .pybool i.outside_root)]

/-- FileInfoCollector.get_file_info: canonicalize the path (raising on
a nonexistent one), compute the relative path best-effort, read size
and mtime, and classify against the root.  The get_rel_path(..) or ""
of the source maps the empty string to itself. -/
def get_file_info (fs : FS) (path root : String) : Except PyErr FileInfo := do
  let abs_path ← get_abspath fs path false true
  let rel_path := get_rel_path fs abs_path root
  let outside ← is_outside_root fs abs_path root
  .ok ⟨abs_path, rel_path, fs.size abs_path, fs.mtime abs_path, outside⟩

/-! ## FileFilter -/

/-- os.path.basename: the part after the last separator. -/
def basename (p : String) : String :=
  String.mk ((p.data.reverse.takeWhile (fun c => c ≠ '/')).reverse)

/-- FileFilter state after construction.  The regex field is the
compiled pattern: some m when a non-empty pattern string was given
(Python's if pattern is a truthiness test), where m s decides whether
re.match(pattern, s) succeeds — a match anchored at the start of s, not
a full-string match; none when the pattern was None or empty. -/
structure FileFilter where
  regex : Option (String → Bool)
  only_match_filename : Bool

/-- FileFilter.filter_files: with no compiled pattern return the input
list; otherwise keep the entries the regex accepts.  Note the source
matches each full entry string and never consults
only_match_filename here. -/
def FileFilter.filter_files (f : FileFilter) (files : List String) : List String :=
  match f.regex with
  | none => files
  | some m => files.filter m

/-- FileFilter.is_match: with no compiled pattern always true;
otherwise match the basename when only_match_filename is set, the full
path otherwise. -/
def FileFilter.is_match (f : FileFilter) (full_path : String) : Bool :=
  match f.regex with
  | none => true
  | some m => m (if f.only_match_filename then basename full_path else full_path)

/-- Matcher denoting the compiled form of a literal pattern such as
"a": re.match anchors at the start, so it accepts exactly the strings
having the literal as a prefix. -/
def literalMatcher (lit : String) : String → Bool :=
  fun s => lit.data.isPrefixOf s.data

/-! ## ConfigFileHandler -/

/-- ConfigFileTemplate.get_default_config: the default document. -/
def get_default_config : PyDict := [(.kstr "tracked", .pydict [])]

/-- Python's isinstance(value, type(default_value)) for the value
shapes representable here.  A Python bool is a subclass of int, so a
bool value passes an int default; no other cross-constructor pair
does. -/
def isinstanceOfTypeOf (value default : PyVal) : Bool :=
  match default, value with
  | .pynone, .pynone => true
  | .pybool _, .pybool _ => true
  | .pyint _, .pyint _ => true
  | .pyint _, .pybool _ => true
  | .pystr _, .pystr _ => true
  | .pylist _, .pylist _ => true
  | .pydict _, .pydict _ => true
  | _, _ => false

/-- The per-entry test of the tracked comprehension in
validate_config_structure: isinstance(k, str) and isinstance(v, dict). -/
def keyEntryOk (kv : PyKey × PyVal) : Bool :=
  (match kv.1 with | .kstr _ => true | _ => false) && kv.2.isDict

/-- Value stored by validate_config_structure under one template key:
the raw value when its shape fits the template default, the default
otherwise; a dict default additionally filters the raw dict down to
string-keyed, dict-valued entries.  copy.deepcopy is the identity on
values. -/
def validateValue (c : PyDict) (kv : PyKey × PyVal) : PyVal :=
  match dictLookup c kv.1 with
  | none => kv.2
  | some value =>
      match kv.2 with
      | .pydict _ =>
          match value with
          | .pydict entries => PyVal.pydict (entries.filter keyEntryOk)
          | _ => kv.2
      | _ => if isinstanceOfTypeOf value kv.2 then value else kv.2

/-- One item of the validated dict: the template key paired with the
value validate_config_structure assigns to it. -/
def validateEntry (c : PyDict) (kv : PyKey × PyVal) : PyKey × PyVal :=
  (kv.1, validateValue c kv)

/-- ConfigFileHandler.validate_config_structure: raises ValueError on a
non-dict input, otherwise rebuilds the document by iterating the
template items in order (so keys absent from the template are
dropped).  The template-or-default of the source is a truthiness test:
an absent template (modelled as the empty dict, like an explicit empty
dict) is replaced by the default template. -/
def validate_config_structure (config : PyVal) (template : PyDict) :
    Except PyErr PyDict :=
  let tmpl := if template.isEmpty then get_default_config else template
  match config with
  | .pydict c => .ok (tmpl.map (validateEntry c))
  | _ => .error .valueError

/-- Document written by ConfigFileHandler.create_template_config: a
deep copy of the handler's current in-memory config whose tracked
field is replaced by a shallow copy of itself; raises KeyError when
the config has no tracked key and TypeError when that field is not a
dict (dict() on a non-mapping). -/
def create_template_config_written (cfg : PyDict) : Except PyErr PyDict :=
  match dictLookup cfg (.kstr "tracked") with
  | some (.pydict t) => .ok (dictSet cfg (.kstr "tracked") (.pydict t))
  | some _ => .error .typeError
  | none => .error .keyError

/-- Outcome of one json_read of the configuration file: a parse
failure (ujson.JSONDecodeError), another I/O failure (propagated
unchanged), or the parsed value. -/
inductive ReadResult where
  | malformed
  | oserror
  | content (v : PyVal)

/-- Loop body of ConfigFileHandler.safe_read_config.  The environment
env gives the outcome of the i-th read of the file (the on-disk file
may be rewritten between attempts, by this very recovery or by outside
interference, so each read has its own outcome); entry is the
handler's in-memory self.config, which the loop never reassigns before
returning.  Returns the result together with the list of documents
written over the configuration file by the except-branch, in
chronological order. -/
def safe_read_attempts (env : Nat → ReadResult) (entry : PyDict) (i : Nat) :
    Nat → (Except PyErr PyDict) × List PyDict
  | 0 => (.error .runtimeError, [])
  | fuel + 1 =>
      match env i with
      | .malformed =>
          match create_template_config_written entry with
          | .error e => (.error e, [])
          | .ok w =>
              let r := safe_read_attempts env entry (i + 1) fuel
              (r.1, w :: r.2)
      | .oserror => (.error .ioError, [])
      | .content v =>
          match validate_config_structure v get_default_config with
          | .ok cfg => (.ok cfg, [])
          | .error e => (.error e, [])

/-- ConfigFileHandler.safe_read_config(retries): run up to retries
attempts starting from the first read; exhausting the budget raises
RuntimeError.  On success the handler stores and returns the validated
document; on a non-parse failure the exception propagates at once. -/
def safe_read_config (env : Nat → ReadResult) (entry : PyDict) (retries : Nat) :
    (Except PyErr PyDict) × List PyDict :=
  safe_read_attempts env entry 0 retries

/-! ## Tracker -/

/-- In-memory state of a Tracker instance. -/
structure TrackerState where
  config : PyDict
  config_path : String
  auto_save : Bool
  auto_clean : Bool
  file_filter : FileFilter

/-- Tracker.__init__: self.config["tracked"] = dict(config.get("tracked", {})).
A missing tracked field becomes a fresh empty dict; a dict field is
shallow-copied (the identity on values); dict() applied to any
non-mapping value this program can put there raises TypeError. -/
def Tracker.init (config : PyDict) (config_path : String)
    (auto_save auto_clean : Bool) (file_filter : FileFilter) :
    Except PyErr TrackerState :=
  match dictLookup config (.kstr "tracked") with
  | none =>
      .ok ⟨dictSet config (.kstr "tracked") (.pydict []),
           config_path, auto_save, auto_clean, file_filter⟩
  | some (.pydict d) =>
      .ok ⟨dictSet config (.kstr "tracked") (.pydict d),
           config_path, auto_save, auto_clean, file_filter⟩
  | some _ => .error .typeError

/-- Read self.config["tracked"]: KeyError when the key is absent,
TypeError (for AttributeError/TypeError alike) when the value is not a
dict. -/
def TrackerState.trackedE (st : TrackerState) : Except PyErr PyDict :=
  match dictLookup st.config (.kstr "tracked") with
  | some (.pydict d) => .ok d
  | some _ => .error .typeError
  | none => .error .keyError

/-- Reassign self.config["tracked"]. -/
def TrackerState.setTracked (st : TrackerState) (d : PyDict) : TrackerState :=
  { st with config := dictSet st.config (.kstr "tracked") (.pydict d) }

/-- The os.path.isfile test clean_tracked_files applies to a stored
key.  Only string keys occur in documents this program produces. -/
def keyIsFile (fs : FS) (k : PyKey) : Bool :=
  match k with
  | .kstr p => fs.isfile p
  | _ => false

/-- Tracker.clean_tracked_files: keep exactly the entries whose key
still names an existing regular file. -/
def clean_tracked_files (fs : FS) (st : TrackerState) : Except PyErr TrackerState := do
  let tracked ← st.trackedE
  .ok (st.setTracked (tracked.filter (fun kv => keyIsFile fs kv.1)))

/-- Tracker.export_config: clean first when auto_clean is set, then
serialize a copy of the document (reading self.config["tracked"]
again) and write it to the configuration path.  The write has no
in-memory effect, so the write itself is not part of the state. -/
def export_config (fs : FS) (st : TrackerState) : Except PyErr TrackerState := do
  let st1 ← if st.auto_clean then clean_tracked_files fs st else .ok st
  let _ ← st1.trackedE
  .ok st1

/-- The Tracker._auto_export_config decorator: after the wrapped
mutation, run export_config when auto_save is set. -/
def auto_export (fs : FS) (st : TrackerState) : Except PyErr TrackerState :=
  if st.auto_save then export_config fs st else .ok st

/-- Tracker.add_file: canonicalize the path (raising on a nonexistent
one); when it is a regular file accepted by the filter, collect its
record and store it under its own path field; otherwise do nothing.
Then the auto-export policy runs. -/
def add_file (fs : FS) (st : TrackerState) (path root : String) :
    Except PyErr TrackerState := do
  let full_path ← get_abspath fs path false true
  let st1 ←
    if fs.isfile full_path && st.file_filter.is_match full_path then do
      let info ← get_file_info fs full_path root
      let tracked ← st.trackedE
      pure (st.setTracked (dictSet tracked (.kstr info.path) info.toPy))
    else
      pure st
  auto_export fs st1

/-- os.path.join for a directory and an entry name, as used by the
scanners (the entry names produced by listdir and walk are plain
names, never absolute). -/
def joinPath (a b : String) : String :=
  if pathIsAbs b then b
  else if a = "" then b
  else if a.data.getLast? == some '/' then a ++ b
  else a ++ "/" ++ b

/-- OSManager.get_dir_file: canonicalize the directory (raising on a
nonexistent one), keep the listing entries that are regular files, and
key each collected record by its own path field.  The walrus dict
comprehension of the source evaluates get_file_info once per kept
entry; a raised error propagates. -/
def get_dir_file (fs : FS) (path root : String) : Except PyErr PyDict := do
  let p ← get_abspath fs path false true
  let infos ← ((fs.listdir p).filter (fun n => fs.isfile (joinPath p n))).mapM
      (fun n => get_file_info fs (joinPath p n) root)
  pure (dictFromPairs (infos.map (fun i => (PyKey.kstr i.path, i.toPy))))

/-- OSManager.recursive_get_dir_file: os.walk enumeration (no
existence check on the argument: walking a nonexistent tree yields
nothing), keeping regular files and keying records by their path
field. -/
def recursive_get_dir_file (fs : FS) (path root : String) : Except PyErr PyDict := do
  let infos ← (((fs.walk path).flatMap (fun dn => dn.2.map (fun n => joinPath dn.1 n))).filter
      fs.isfile).mapM (fun n => get_file_info fs n root)
  pure (dictFromPairs (infos.map (fun i => (PyKey.kstr i.path, i.toPy))))

/-- The conditional expression choosing the scanner in Tracker.add_dir. -/
def scan_dir (fs : FS) (path root : String) (recursive : Bool) : Except PyErr PyDict :=
  if recursive then recursive_get_dir_file fs path root
  else get_dir_file fs path root

/-- Tracker.add_dir: scan (shallow or recursive), keep the discovered
paths the filter accepts, and merge the records into tracked.  Then
the auto-export policy runs. -/
def add_dir (fs : FS) (st : TrackerState) (path root : String) (recursive : Bool) :
    Except PyErr TrackerState := do
  let file_dict ← scan_dir fs path root recursive
  let tracked ← st.trackedE
  auto_export fs (st.setTracked (dictUpdate tracked (file_dict.filter (fun kv =>
    match kv.1 with
    | .kstr s => st.file_filter.is_match s
    | _ => false))))

/-- Tracker.remove_file: the format_abspath decorator canonicalizes
the argument only when it names an existing file or directory; the
(possibly unchanged) string is then popped from tracked, absence being
ignored.  Then the auto-export policy runs. -/
def remove_file (fs : FS) (st : TrackerState) (path : String) :
    Except PyErr TrackerState := do
  let p := format_abspath_normalize fs path
  let tracked ← st.trackedE
  auto_export fs (st.setTracked (dictPop tracked (.kstr p)))

/-- One mutating Tracker operation. -/
inductive TrackerOp where
  | addFile (path root : String)
  | addDir (path root : String) (recursive : Bool)
  | removeFile (path : String)

/-- Run one mutating operation against one filesystem state. -/
def runOp (fs : FS) (st : TrackerState) : TrackerOp → Except PyErr TrackerState
  | .addFile p r => add_file fs st p r
  | .addDir p r rc => add_dir fs st p r rc
  | .removeFile p => remove_file fs st p

/-- States reachable from st0 by a sequence of successful mutating
operations; the filesystem may differ from step to step. -/
inductive Reachable (st0 : TrackerState) : TrackerState → Prop where
  | refl : Reachable st0 st0
  | step {st st' : TrackerState} {fs : FS} {op : TrackerOp} :
      Reachable st0 st → runOp fs st op = .ok st' → Reachable st0 st'

/-! ## Observables and invariants -/

/-- Key/value path agreement for one tracked entry: the key is a
string equal to the value's path field. -/
def entryPathAgree (kv : PyKey × PyVal) : Bool :=
  match kv with
  | (.kstr k, .pydict d) =>
      match dictLookup d (.kstr "path") with
      | some (.pystr s) => k == s
      | _ => false
  | _ => false

/-- Key/value path agreement for a whole tracked dict. -/
def pathAgree (d : PyDict) : Bool := d.all entryPathAgree

/-- Key/value path agreement read off a Tracker state. -/
def TrackerState.pathAgreeB (st : TrackerState) : Bool :=
  match dictLookup st.config (.kstr "tracked") with
  | some (.pydict d) => pathAgree d
  | _ => false

/-- Whether the state's tracked dict has an entry for the given path. -/
def TrackerState.hasTracked (st : TrackerState) (s : String) : Bool :=
  match dictLookup st.config (.kstr "tracked") with
  | some (.pydict d) => dictContains d (.kstr s)
  | _ => false

/-- Whether a document's tracked dict has an entry for the given path. -/
def cfgTrackedHasKey (cfg : PyDict) (s : String) : Bool :=
  match dictLookup cfg (.kstr "tracked") with
  | some (.pydict t) => dictContains t (.kstr s)
  | _ => false

/-- Net in-memory effect of the save policy that every mutating
operation triggers on the state it just produced: with auto_save and
auto_clean both set, stale entries are dropped from the given tracked
dict d (the state's current one); otherwise nothing changes. -/
def postPolicy (fs : FS) (st : TrackerState) (d : PyDict) : TrackerState :=
  if st.auto_save && st.auto_clean then
    st.setTracked (d.filter (fun kv => keyIsFile fs kv.1))
  else st

/-! ## Lemmas about dict operations and states -/

theorem trackedE_elim {st : TrackerState} {d : PyDict} (h : st.trackedE = .ok d) :
    dictLookup st.config (.kstr "tracked") = some (.pydict d) := by
  unfold TrackerState.trackedE at h
  cases hl : dictLookup st.config (.kstr "tracked") with
  | none => rw [hl] at h; exact absurd h (by simp)
  | some v =>
      rw [hl] at h
      cases v <;> simp_all

theorem trackedE_intro {st : TrackerState} {d : PyDict}
    (h : dictLookup st.config (.kstr "tracked") = some (.pydict d)) :
    st.trackedE = .ok d := by
  unfold TrackerState.trackedE
  rw [h]

theorem trackedE_setTracked (st : TrackerState) (d : PyDict) :
    (st.setTracked d).trackedE = .ok d := by
  unfold TrackerState.trackedE TrackerState.setTracked
  simp [dictLookup_set_self]

theorem setTracked_self {st : TrackerState} {d : PyDict}
    (h : st.trackedE = .ok d) : st.setTracked d = st := by
  unfold TrackerState.setTracked
  rw [dictSet_of_lookup_eq _ _ _ (trackedE_elim h)]

theorem all_foldl_dictSet {p : PyKey × PyVal → Bool} (ps : List (PyKey × PyVal)) :
    ∀ acc : PyDict, acc.all p = true → (∀ kv ∈ ps, p kv = true) →
      (ps.foldl (fun d kv => dictSet d kv.1 kv.2) acc).all p = true := by
  induction ps with
  | nil => intro acc ha _; exact ha
  | cons hd tl ih =>
      intro acc ha hp
      refine ih (dictSet acc hd.1 hd.2) ?_ (fun kv hkv => hp kv (List.mem_cons_of_mem _ hkv))
      rw [List.all_eq_true] at *
      intro e he
      rcases dictSet_mem acc hd.1 hd.2 e he with h | h
      · exact ha e h
      · rw [h]; exact hp hd (List.mem_cons_self _ _)

theorem pathAgree_dictSet {d : PyDict} {k : PyKey} {v : PyVal}
    (hd : pathAgree d = true) (hkv : entryPathAgree (k, v) = true) :
    pathAgree (dictSet d k v) = true := by
  unfold pathAgree at *
  rw [List.all_eq_true] at *
  intro e he
  rcases dictSet_mem d k v e he with h | h
  · exact hd e h
  · rw [h]; exact hkv

theorem pathAgree_dictPop {d : PyDict} {k : PyKey} (hd : pathAgree d = true) :
    pathAgree (dictPop d k) = true := by
  unfold pathAgree at *
  rw [List.all_eq_true] at *
  exact fun e he => hd e (dictPop_subset d k e he)

theorem pathAgree_filter {d : PyDict} {p : PyKey × PyVal → Bool}
    (hd : pathAgree d = true) : pathAgree (d.filter p) = true := by
  unfold pathAgree at *
  rw [List.all_eq_true] at *
  exact fun e he => hd e (List.mem_of_mem_filter he)

theorem pathAgree_dictUpdate {d e : PyDict}
    (hd : pathAgree d = true) (he : e.all entryPathAgree = true) :
    pathAgree (dictUpdate d e) = true := by
  unfold pathAgree at *
  rw [List.all_eq_true] at he
  exact all_foldl_dictSet e d hd he

theorem entryPathAgree_toPy (i : FileInfo) :
    entryPathAgree (.kstr i.path, i.toPy) = true := by
  simp [entryPathAgree, FileInfo.toPy, dictLookup]

theorem pathAgreeB_setTracked {st : TrackerState} {d : PyDict}
    (h : pathAgree d = true) : (st.setTracked d).pathAgreeB = true := by
  unfold TrackerState.pathAgreeB TrackerState.setTracked
  simp [dictLookup_set_self, h]

theorem pathAgreeB_elim {st : TrackerState} (h : st.pathAgreeB = true) :
    ∃ d, dictLookup st.config (.kstr "tracked") = some (.pydict d) ∧ pathAgree d = true := by
  unfold TrackerState.pathAgreeB at h
  cases hl : dictLookup st.config (.kstr "tracked") with
  | none => rw [hl] at h; exact absurd h (by simp)
  | some v =>
      rw [hl] at h
      cases v <;> simp_all

/-- The auto-export step evaluates to the postPolicy transformation of
the state whenever the tracked field is a dict. -/
theorem auto_export_eq (fs : FS) (st : TrackerState) (d : PyDict)
    (hd : st.trackedE = .ok d) : auto_export fs st = .ok (postPolicy fs st d) := by
  unfold auto_export export_config postPolicy
  cases hs : st.auto_save with
  | false => simp
  | true =>
      cases hc : st.auto_clean with
      | false =>
          simp only [Bool.true_and, if_neg (by simp [hc] : ¬st.auto_clean = true)]
          simp [hc, hd, bind, Except.bind]
      | true =>
          simp only [Bool.true_and, if_pos hc]
          simp [hc, clean_tracked_files, hd, bind, Except.bind, trackedE_setTracked]

@[simp] theorem bind_ok_pe {α β : Type} (a : α) (f : α → Except PyErr β) :
    ((Except.ok a : Except PyErr α) >>= f) = f a := rfl

@[simp] theorem bind_error_pe {α β : Type} (e : PyErr) (f : α → Except PyErr β) :
    ((Except.error e : Except PyErr α) >>= f) = Except.error e := rfl

@[simp] theorem pure_pe {α : Type} (a : α) : (pure a : Except PyErr α) = Except.ok a := rfl

theorem pathAgreeB_intro {st : TrackerState} {d : PyDict}
    (hl : st.trackedE = .ok d) (hp : pathAgree d = true) : st.pathAgreeB = true := by
  unfold TrackerState.pathAgreeB
  rw [trackedE_elim hl]
  exact hp

theorem postPolicy_pathAgreeB {fs : FS} {st : TrackerState} {d : PyDict}
    (hd : st.trackedE = .ok d) (hp : pathAgree d = true) :
    (postPolicy fs st d).pathAgreeB = true := by
  unfold postPolicy
  split
  · exact pathAgreeB_setTracked (pathAgree_filter hp)
  · exact pathAgreeB_intro hd hp

theorem add_file_pathAgree {fs : FS} {st st' : TrackerState} {p r : String}
    (h : add_file fs st p r = .ok st') (ha : st.pathAgreeB = true) :
    st'.pathAgreeB = true := by
  obtain ⟨d, hl, hp⟩ := pathAgreeB_elim ha
  have hte : st.trackedE = .ok d := trackedE_intro hl
  unfold add_file at h
  cases hab : get_abspath fs p false true with
  | error e => rw [hab] at h; simp at h
  | ok full =>
      rw [hab] at h
      simp only [bind_ok_pe] at h
      by_cases hc : (fs.isfile full && st.file_filter.is_match full) = true
      · rw [if_pos hc] at h
        cases hfi : get_file_info fs full r with
        | error e => rw [hfi] at h; simp at h
        | ok i =>
            rw [hfi] at h
            simp only [bind_ok_pe, hte, pure_pe] at h
            have h1 : pathAgree (dictSet d (.kstr i.path) i.toPy) = true :=
              pathAgree_dictSet hp (entryPathAgree_toPy i)
            rw [auto_export_eq fs _ _ (trackedE_setTracked st _)] at h
            simp only [Except.ok.injEq] at h
            rw [← h]
            exact postPolicy_pathAgreeB (trackedE_setTracked st _) h1
      · rw [if_neg hc] at h
        simp only [pure_pe, bind_ok_pe] at h
        rw [auto_export_eq fs st d hte] at h
        simp only [Except.ok.injEq] at h
        rw [← h]
        exact postPolicy_pathAgreeB hte hp

theorem all_dictFromPairs {p : PyKey × PyVal → Bool} {ps : List (PyKey × PyVal)}
    (hp : ∀ kv ∈ ps, p kv = true) : (dictFromPairs ps).all p = true :=
  all_foldl_dictSet ps [] (by simp) hp

theorem infos_map_pathAgree (infos : List FileInfo) :
    ∀ kv ∈ infos.map (fun i => (PyKey.kstr i.path, i.toPy)), entryPathAgree kv = true := by
  intro kv hkv
  rcases List.mem_map.mp hkv with ⟨i, _, hi⟩
  rw [← hi]
  exact entryPathAgree_toPy i

theorem get_dir_file_pathAgree {fs : FS} {p r : String} {fd : PyDict}
    (h : get_dir_file fs p r = .ok fd) : fd.all entryPathAgree = true := by
  unfold get_dir_file at h
  cases hab : get_abspath fs p false true with
  | error e => rw [hab] at h; simp at h
  | ok full =>
      rw [hab] at h
      simp only [bind_ok_pe] at h
      cases hmm : ((fs.listdir full).filter fun n => fs.isfile (joinPath full n)).mapM
          (fun n => get_file_info fs (joinPath full n) r) with
      | error e => rw [hmm] at h; simp at h
      | ok infos =>
          rw [hmm] at h
          simp only [bind_ok_pe, pure_pe, Except.ok.injEq] at h
          rw [← h]
          exact all_dictFromPairs (infos_map_pathAgree infos)

theorem recursive_get_dir_file_pathAgree {fs : FS} {p r : String} {fd : PyDict}
    (h : recursive_get_dir_file fs p r = .ok fd) : fd.all entryPathAgree = true := by
  unfold recursive_get_dir_file at h
  cases hmm : (((fs.walk p).flatMap (fun dn => dn.2.map (fun n => joinPath dn.1 n))).filter
      fs.isfile).mapM (fun n => get_file_info fs n r) with
  | error e => rw [hmm] at h; simp at h
  | ok infos =>
      rw [hmm] at h
      simp only [bind_ok_pe, pure_pe, Except.ok.injEq] at h
      rw [← h]
      exact all_dictFromPairs (infos_map_pathAgree infos)

theorem add_dir_pathAgree {fs : FS} {st st' : TrackerState} {p r : String} {rc : Bool}
    (h : add_dir fs st p r rc = .ok st') (ha : st.pathAgreeB = true) :
    st'.pathAgreeB = true := by
  obtain ⟨d, hl, hp⟩ := pathAgreeB_elim ha
  have hte : st.trackedE = .ok d := trackedE_intro hl
  unfold add_dir at h
  cases hfd : scan_dir fs p r rc with
  | error e => rw [hfd] at h; simp at h
  | ok fd =>
      rw [hfd] at h
      have hall : fd.all entryPathAgree = true := by
        unfold scan_dir at hfd
        by_cases hrc : rc = true
        · rw [if_pos hrc] at hfd
          exact recursive_get_dir_file_pathAgree hfd
        · rw [if_neg hrc] at hfd
          exact get_dir_file_pathAgree hfd
      simp only [bind_ok_pe, hte] at h
      have hkept : (fd.filter fun kv =>
          match kv.1 with
          | .kstr s => st.file_filter.is_match s
          | _ => false).all entryPathAgree = true := by
        rw [List.all_eq_true] at *
        exact fun e he => hall e (List.mem_of_mem_filter he)
      have h1 : pathAgree (dictUpdate d _) = true := pathAgree_dictUpdate hp hkept
      rw [auto_export_eq fs _ _ (trackedE_setTracked st _)] at h
      simp only [Except.ok.injEq] at h
      rw [← h]
      exact postPolicy_pathAgreeB (trackedE_setTracked st _) h1

theorem remove_file_pathAgree {fs : FS} {st st' : TrackerState} {p : String}
    (h : remove_file fs st p = .ok st') (ha : st.pathAgreeB = true) :
    st'.pathAgreeB = true := by
  obtain ⟨d, hl, hp⟩ := pathAgreeB_elim ha
  have hte : st.trackedE = .ok d := trackedE_intro hl
  unfold remove_file at h
  simp only [hte, bind_ok_pe] at h
  have h1 : pathAgree (dictPop d (.kstr (format_abspath_normalize fs p))) = true :=
    pathAgree_dictPop hp
  rw [auto_export_eq fs _ _ (trackedE_setTracked st _)] at h
  simp only [Except.ok.injEq] at h
  rw [← h]
  exact postPolicy_pathAgreeB (trackedE_setTracked st _) h1

theorem runOp_pathAgree {fs : FS} {st st' : TrackerState} {op : TrackerOp}
    (h : runOp fs st op = .ok st') (ha : st.pathAgreeB = true) :
    st'.pathAgreeB = true := by
  cases op with
  | addFile p r => exact add_file_pathAgree h ha
  | addDir p r rc => exact add_dir_pathAgree h ha
  | removeFile p => exact remove_file_pathAgree h ha

theorem contains_iff_mem_keys (d : PyDict) (k : PyKey) :
    dictContains d k = true ↔ k ∈ dictKeys d := by
  induction d with
  | nil => simp [dictContains, dictLookup, dictKeys]
  | cons hd tl ih =>
      obtain ⟨k', v'⟩ := hd
      by_cases hk : k' = k
      · simp [dictContains, dictLookup, dictKeys, hk]
      · simp only [dictContains, dictLookup, if_neg hk, dictKeys, List.map_cons,
          List.mem_cons]
        rw [← dictKeys, ← dictContains, ih]
        constructor
        · exact Or.inr
        · rintro (h | h)
          · exact absurd h.symm hk
          · exact h

theorem dictKeys_dictSet (d : PyDict) (k : PyKey) (v : PyVal) :
    dictKeys (dictSet d k v) =
      if dictContains d k then dictKeys d else dictKeys d ++ [k] := by
  induction d with
  | nil => simp [dictSet, dictKeys, dictContains, dictLookup]
  | cons hd tl ih =>
      obtain ⟨k', v'⟩ := hd
      by_cases hk : k' = k
      · simp [dictSet, dictKeys, dictContains, dictLookup, hk]
      · simp only [dictSet, if_neg hk, dictKeys, List.map_cons, dictContains,
          dictLookup]
        rw [← dictKeys, ← dictKeys, ← dictContains, ih]
        by_cases hc : dictContains tl k = true
        · simp [hc, hk]
        · simp only [Bool.not_eq_true] at hc
          simp [hc, hk]

theorem nodup_dictSet {d : PyDict} {k : PyKey} {v : PyVal}
    (h : (dictKeys d).Nodup) : (dictKeys (dictSet d k v)).Nodup := by
  rw [dictKeys_dictSet]
  by_cases hc : dictContains d k = true
  · simp [hc, h]
  · simp only [Bool.not_eq_true] at hc
    simp only [hc, Bool.false_eq_true, if_false]
    rw [List.nodup_append]
    refine ⟨h, List.nodup_singleton k, ?_⟩
    intro a ha hb
    rw [List.mem_singleton] at hb
    rw [hb] at ha
    exact absurd ((contains_iff_mem_keys d k).mpr ha) (by simp [hc])

theorem nodup_filter {d : PyDict} {p : PyKey × PyVal → Bool}
    (h : (dictKeys d).Nodup) : (dictKeys (d.filter p)).Nodup :=
  List.Nodup.sublist (List.Sublist.map Prod.fst (List.filter_sublist d)) h

theorem dictLookup_filter {d : PyDict} {p : PyKey × PyVal → Bool} {k : PyKey} {v : PyVal}
    (hl : dictLookup d k = some v) (hp : p (k, v) = true) :
    dictLookup (d.filter p) k = some v := by
  induction d with
  | nil => simp [dictLookup] at hl
  | cons hd tl ih =>
      obtain ⟨k', v'⟩ := hd
      by_cases hk : k' = k
      · simp only [dictLookup, if_pos hk] at hl
        have hv : v' = v := by simpa using hl
        subst hv; subst hk
        rw [List.filter_cons_of_pos hp]
        simp [dictLookup]
      · simp only [dictLookup, if_neg hk] at hl
        by_cases hpkv : p (k', v') = true
        · rw [List.filter_cons_of_pos hpkv]
          simp only [dictLookup, if_neg hk]
          exact ih hl
        · rw [List.filter_cons_of_neg (by simpa using hpkv)]
          exact ih hl

theorem filter_key_nil {d : PyDict} {k : PyKey} (h : k ∉ dictKeys d) :
    d.filter (fun kv => kv.1 == k) = [] := by
  induction d with
  | nil => simp
  | cons hd tl ih =>
      obtain ⟨k', v'⟩ := hd
      have hck : dictKeys ((k', v') :: tl) = k' :: dictKeys tl := rfl
      rw [hck, List.mem_cons] at h
      push_neg at h
      rw [List.filter_cons_of_neg (by simpa using fun hkk : k' = k => h.1 hkk.symm)]
      exact ih h.2

theorem filter_key_of_nodup {d : PyDict} {k : PyKey} {v : PyVal}
    (hnd : (dictKeys d).Nodup) (hl : dictLookup d k = some v) :
    d.filter (fun kv => kv.1 == k) = [(k, v)] := by
  induction d with
  | nil => simp [dictLookup] at hl
  | cons hd tl ih =>
      obtain ⟨k', v'⟩ := hd
      have hck : dictKeys ((k', v') :: tl) = k' :: dictKeys tl := rfl
      rw [hck, List.nodup_cons] at hnd
      by_cases hk : k' = k
      · simp only [dictLookup, if_pos hk] at hl
        have hv : v' = v := by simpa using hl
        subst hv; subst hk
        rw [List.filter_cons_of_pos (by simp)]
        rw [filter_key_nil hnd.1]
      · simp only [dictLookup, if_neg hk] at hl
        rw [List.filter_cons_of_neg (by simpa using hk)]
        exact ih hnd.2 hl

/-! ## Characterization of safe_read_config -/

theorem create_template_config_written_self {entry : PyDict} {t : PyDict}
    (h : dictLookup entry (.kstr "tracked") = some (.pydict t)) :
    create_template_config_written entry = .ok entry := by
  unfold create_template_config_written
  rw [h]
  show Except.ok (dictSet entry (.kstr "tracked") (.pydict t)) = Except.ok entry
  rw [dictSet_of_lookup_eq _ _ _ h]

theorem safe_read_attempts_succ_malformed (env : Nat → ReadResult) (entry w : PyDict)
    (i fuel : Nat) (hw : create_template_config_written entry = .ok w)
    (hm : env i = .malformed) :
    safe_read_attempts env entry i (fuel + 1) =
      ((safe_read_attempts env entry (i + 1) fuel).1,
        w :: (safe_read_attempts env entry (i + 1) fuel).2) := by
  conv_lhs => rw [safe_read_attempts]
  rw [hm, hw]

theorem safe_read_attempts_skip (env : Nat → ReadResult) (entry w : PyDict)
    (hw : create_template_config_written entry = .ok w) :
    ∀ (j i fuel : Nat), j ≤ fuel → (∀ t, t < j → env (i + t) = .malformed) →
    safe_read_attempts env entry i fuel =
      ((safe_read_attempts env entry (i + j) (fuel - j)).1,
        List.replicate j w ++ (safe_read_attempts env entry (i + j) (fuel - j)).2) := by
  intro j
  induction j with
  | zero => intro i fuel _ _; simp
  | succ n ih =>
      intro i fuel hle hm
      obtain ⟨f, rfl⟩ : ∃ f, fuel = f + 1 := ⟨fuel - 1, by omega⟩
      rw [safe_read_attempts_succ_malformed env entry w i f hw
        (by simpa using hm 0 (by omega))]
      have hm' : ∀ t, t < n → env (i + 1 + t) = .malformed := by
        intro t ht
        have := hm (t + 1) (by omega)
        simpa [show i + (t + 1) = i + 1 + t by omega] using this
      rw [ih (i + 1) f (by omega) hm']
      have h1 : i + (n + 1) = i + 1 + n := by omega
      have h2 : f + 1 - (n + 1) = f - n := by omega
      rw [h1, h2, List.replicate_succ, List.cons_append]

/-! ## Claim theorems -/

/-- Filter state of a Tracker constructed without a pattern. -/
def ffNone : FileFilter := { regex := none, only_match_filename := true }

/-- Raw document whose tracked entry has a path field disagreeing with
its key; validate_config_structure keeps it unchanged. -/
def c1BadRaw : PyVal :=
  .pydict [(.kstr "tracked", .pydict [(.kstr "a", .pydict [(.kstr "path", .pystr "b")])])]

/-- The validated form of c1BadRaw. -/
def c1BadDoc : PyDict :=
  [(.kstr "tracked", .pydict [(.kstr "a", .pydict [(.kstr "path", .pystr "b")])])]

/-- Tracker state built from c1BadDoc. -/
def c1BadState : TrackerState :=
  { config := c1BadDoc, config_path := "user_config.json",
    auto_save := true, auto_clean := true, file_filter := ffNone }

/-- C1 fails as stated: validate_config_structure keeps any entry with
a string key and dict value without checking that the value's path
field equals the key, so the key/value path agreement can already be
violated in the validated document a Tracker starts from (zero
mutating operations applied). -/
theorem C1_counterexample :
    validate_config_structure c1BadRaw get_default_config = .ok c1BadDoc ∧
    Tracker.init c1BadDoc "user_config.json" true true ffNone = .ok c1BadState ∧
    Reachable c1BadState c1BadState ∧
    c1BadState.pathAgreeB = false :=
  ⟨rfl, rfl, .refl, rfl⟩

/-- C1 (amended): the mutating operations add_file, add_dir and
remove_file preserve key/value path agreement — every tracked mapping
reachable from a state that satisfies tracked[p].path == p (for
example one whose document has an empty tracked map) still satisfies
it; validate_config_structure however does not establish the
invariant. -/
theorem C1_amended {st0 st : TrackerState} (h0 : st0.pathAgreeB = true)
    (h : Reachable st0 st) : st.pathAgreeB = true := by
  induction h with
  | refl => exact h0
  | step _ hop ih => exact runOp_pathAgree hop ih

/-- Filesystem with one file under one root, for concrete runs. -/
def fsW : FS :=
  { isfile := fun p => p == "/r/f", isdir := fun p => p == "/r" || p == "/",
    realpath := id, abspath := id, size := fun _ => 1, mtime := fun _ => 2,
    listdir := fun _ => [], walk := fun _ => [], relpath := fun p _ => some p }

/-- Tracker state over an empty tracked map with both policies on. -/
def stW : TrackerState :=
  { config := [(.kstr "tracked", .pydict [])], config_path := "c",
    auto_save := true, auto_clean := true, file_filter := ffNone }

/-- Record collected for the one file of fsW. -/
def fInfoW : FileInfo := ⟨"/r/f", "/r/f", 1, 2, false⟩

/-- State reached from stW by add_file of the one file of fsW. -/
def stW' : TrackerState :=
  { config := [(.kstr "tracked", .pydict [(.kstr "/r/f", fInfoW.toPy)])],
    config_path := "c", auto_save := true, auto_clean := true, file_filter := ffNone }

/-- Witness for C1_amended: a concrete state with path agreement and a
concrete successful add_file step; the theorem yields agreement for
the reached state. -/
theorem C1_witness :
    stW.pathAgreeB = true ∧ Reachable stW stW' ∧ stW'.pathAgreeB = true := by
  have hstep : runOp fsW stW (.addFile "/r/f" "/r") = .ok stW' := by rfl
  exact ⟨rfl, .step .refl hstep, @C1_amended stW stW' rfl (.step .refl hstep)⟩

/-- Filter with the literal pattern a, matching filenames only. -/
def filt3 : FileFilter :=
  { regex := some (literalMatcher "a"), only_match_filename := true }

/-- Filter with the literal pattern a, matching full paths. -/
def filt3b : FileFilter :=
  { regex := some (literalMatcher "a"), only_match_filename := false }

/-- C3 fails as stated: with the only-match-filename flag set,
filter_files matches the pattern against the whole path string while
is_match matches it against the basename, so the batch form excludes
a path that is_match accepts. -/
theorem C3_counterexample :
    filt3.only_match_filename = true ∧
    filt3.filter_files ["d/abc"] = [] ∧
    filt3.is_match "d/abc" = true :=
  ⟨rfl, rfl, rfl⟩

/-- C3 (amended): filter_files always returns exactly the sublist of
paths whose full string the pattern accepts (the basename is never
consulted by the batch form, and with no pattern everything passes);
it agrees element-wise with is_match exactly when the
only-match-filename flag is unset (or there is no pattern). -/
theorem C3_amended (f : FileFilter) (paths : List String) :
    f.filter_files paths = paths.filter (fun s =>
      match f.regex with
      | none => true
      | some m => m s) ∧
    (f.only_match_filename = false →
      f.filter_files paths = paths.filter f.is_match) := by
  cases hr : f.regex with
  | none =>
      refine ⟨by simp [FileFilter.filter_files, hr], fun hf => ?_⟩
      have h1 : List.filter f.is_match paths = List.filter (fun _ => true) paths :=
        List.filter_congr (fun s _ => by simp [FileFilter.is_match, hr])
      simp [FileFilter.filter_files, hr, h1]
  | some m =>
      refine ⟨by simp [FileFilter.filter_files, hr], fun hf => ?_⟩
      have h1 : List.filter f.is_match paths = List.filter m paths :=
        List.filter_congr (fun s _ => by simp [FileFilter.is_match, hr, hf])
      simp [FileFilter.filter_files, hr, h1]

/-- Witness for C3_amended at a concrete filter and path list with the
flag unset. -/
theorem C3_witness :
    filt3b.filter_files ["d/abc", "abc"] = List.filter filt3b.is_match ["d/abc", "abc"] :=
  (C3_amended filt3b ["d/abc", "abc"]).2 rfl

/-- C4: for every raw mapping input, the validated document has
exactly the template's top-level keys in template order (extra keys of
the input are dropped; an absent or empty template means the default
one), and with the default template the tracked field keeps exactly
the entries with string keys and dict values. -/
theorem C4_thm (c : PyDict) (tmpl : PyDict) :
    (tmpl.isEmpty = false →
      ∃ v, validate_config_structure (.pydict c) tmpl = .ok v ∧
        dictKeys v = dictKeys tmpl) ∧
    (∃ v t, validate_config_structure (.pydict c) get_default_config = .ok v ∧
      dictKeys v = [.kstr "tracked"] ∧
      dictLookup v (.kstr "tracked") = some (.pydict t) ∧
      t.all keyEntryOk = true) := by
  constructor
  · intro hne
    refine ⟨tmpl.map (validateEntry c), ?_, ?_⟩
    · simp [validate_config_structure, hne]
    · unfold dictKeys
      rw [List.map_map]
      rfl
  · cases hl : dictLookup c (.kstr "tracked") with
    | none =>
        refine ⟨_, [], rfl, ?_, ?_, rfl⟩
        · rfl
        · show dictLookup [validateEntry c (.kstr "tracked", .pydict [])] _ = _
          simp [validateEntry, validateValue, hl, dictLookup]
    | some value =>
        cases value with
        | pydict entries =>
            refine ⟨_, entries.filter keyEntryOk, rfl, rfl, ?_, ?_⟩
            · show dictLookup [validateEntry c (.kstr "tracked", .pydict [])] _ = _
              simp [validateEntry, validateValue, hl, dictLookup]
            · rw [List.all_eq_true]
              exact fun e he => List.of_mem_filter he
        | pynone =>
            refine ⟨_, [], rfl, rfl, ?_, rfl⟩
            show dictLookup [validateEntry c (.kstr "tracked", .pydict [])] _ = _
            simp [validateEntry, validateValue, hl, dictLookup]
        | pybool b =>
            refine ⟨_, [], rfl, rfl, ?_, rfl⟩
            show dictLookup [validateEntry c (.kstr "tracked", .pydict [])] _ = _
            simp [validateEntry, validateValue, hl, dictLookup]
        | pyint n =>
            refine ⟨_, [], rfl, rfl, ?_, rfl⟩
            show dictLookup [validateEntry c (.kstr "tracked", .pydict [])] _ = _
            simp [validateEntry, validateValue, hl, dictLookup]
        | pystr s =>
            refine ⟨_, [], rfl, rfl, ?_, rfl⟩
            show dictLookup [validateEntry c (.kstr "tracked", .pydict [])] _ = _
            simp [validateEntry, validateValue, hl, dictLookup]
        | pylist xs =>
            refine ⟨_, [], rfl, rfl, ?_, rfl⟩
            show dictLookup [validateEntry c (.kstr "tracked", .pydict [])] _ = _
            simp [validateEntry, validateValue, hl, dictLookup]

/-- Witness for C4_thm at a concrete raw document carrying an unknown
key, validated against the (nonempty) default template. -/
theorem C4_witness :
    ∃ v, validate_config_structure (.pydict [(.kstr "junk", .pyint 3)])
        get_default_config = .ok v ∧
      dictKeys v = dictKeys get_default_config :=
  (C4_thm [(.kstr "junk", .pyint 3)] get_default_config).1 rfl

/-- C10: constructing a Tracker never fails on a missing tracked
field — the constructor rebinds config's tracked key to a copy of the
existing tracked dict, or to a fresh empty dict when the key is
absent, so every subsequent operation finds a dict there. -/
theorem C10_thm (config : PyDict) (cp : String) (a c : Bool) (ff : FileFilter) :
    (dictLookup config (.kstr "tracked") = none →
      Tracker.init config cp a c ff =
        .ok ⟨dictSet config (.kstr "tracked") (.pydict []), cp, a, c, ff⟩ ∧
      ∀ st, Tracker.init config cp a c ff = .ok st → st.trackedE = .ok []) ∧
    (∀ d, dictLookup config (.kstr "tracked") = some (.pydict d) →
      Tracker.init config cp a c ff =
        .ok ⟨dictSet config (.kstr "tracked") (.pydict d), cp, a, c, ff⟩ ∧
      ∀ st, Tracker.init config cp a c ff = .ok st → st.trackedE = .ok d) := by
  constructor
  · intro hl
    have hinit : Tracker.init config cp a c ff =
        .ok ⟨dictSet config (.kstr "tracked") (.pydict []), cp, a, c, ff⟩ := by
      unfold Tracker.init
      rw [hl]
    refine ⟨hinit, fun st hst => ?_⟩
    rw [hinit] at hst
    have hst' : (⟨dictSet config (.kstr "tracked") (.pydict []), cp, a, c, ff⟩ :
        TrackerState) = st := by simpa using hst
    rw [← hst']
    unfold TrackerState.trackedE
    simp [dictLookup_set_self]
  · intro d hl
    have hinit : Tracker.init config cp a c ff =
        .ok ⟨dictSet config (.kstr "tracked") (.pydict d), cp, a, c, ff⟩ := by
      unfold Tracker.init
      rw [hl]
    refine ⟨hinit, fun st hst => ?_⟩
    rw [hinit] at hst
    have hst' : (⟨dictSet config (.kstr "tracked") (.pydict d), cp, a, c, ff⟩ :
        TrackerState) = st := by simpa using hst
    rw [← hst']
    unfold TrackerState.trackedE
    simp [dictLookup_set_self]

/-- Witness for C10_thm: a config without a tracked key and one whose
tracked key holds a dict, both at concrete values. -/
theorem C10_witness :
    Tracker.init [(.kstr "other", .pyint 1)] "c" true true ffNone =
      .ok ⟨dictSet [(.kstr "other", .pyint 1)] (.kstr "tracked") (.pydict []),
           "c", true, true, ffNone⟩ ∧
    Tracker.init [(.kstr "tracked", .pydict [(.kstr "k", .pydict [])])] "c" false true ffNone =
      .ok ⟨dictSet [(.kstr "tracked", .pydict [(.kstr "k", .pydict [])])]
             (.kstr "tracked") (.pydict [(.kstr "k", .pydict [])]),
           "c", false, true, ffNone⟩ :=
  ⟨((C10_thm [(.kstr "other", .pyint 1)] "c" true true ffNone).1 rfl).1,
   ((C10_thm [(.kstr "tracked", .pydict [(.kstr "k", .pydict [])])] "c" false true
      ffNone).2 [(.kstr "k", .pydict [])] rfl).1⟩

/-- Filesystem with one directory, no files: everything tracked is
stale. -/
def fs5 : FS :=
  { isfile := fun _ => false, isdir := fun p => p == "/d" || p == "/",
    realpath := id, abspath := id, size := fun _ => 0, mtime := fun _ => 0,
    listdir := fun _ => [], walk := fun _ => [], relpath := fun p _ => some p }

/-- Tracker state with both policies on whose tracked map holds one
stale entry. -/
def st5 : TrackerState :=
  { config := [(.kstr "tracked",
      .pydict [(.kstr "/r/stale", .pydict [(.kstr "path", .pystr "/r/stale")])])],
    config_path := "c", auto_save := true, auto_clean := true, file_filter := ffNone }

/-- State st5 after its stale entry is cleaned away. -/
def st5Clean : TrackerState :=
  { config := [(.kstr "tracked", .pydict [])],
    config_path := "c", auto_save := true, auto_clean := true, file_filter := ffNone }

/-- C5 fails as stated: add_file on a directory adds no record and
raises no error, but under the default auto_save and auto_clean
policies the export it triggers runs clean_tracked_files, which
mutates the tracked mapping by dropping a stale entry. -/
theorem C5_counterexample :
    fs5.isdir "/d" = true ∧ fs5.isfile (fs5.realpath "/d") = false ∧
    st5.hasTracked "/r/stale" = true ∧
    add_file fs5 st5 "/d" "/" = .ok st5Clean ∧
    st5Clean.hasTracked "/r/stale" = false :=
  ⟨rfl, rfl, rfl, rfl, rfl⟩

/-- C5 (amended): add_file on a path that resolves to an existing
directory, or on a regular file the inclusion filter rejects, raises
no error and adds no record; the tracked mapping is unchanged except
that, when auto_save and auto_clean are both enabled, the triggered
export first drops entries whose path no longer names a regular
file. -/
theorem C5_amended (fs : FS) (st : TrackerState) (path root : String) (d : PyDict)
    (hd : st.trackedE = .ok d)
    (hex : (fs.isfile path || fs.isdir path) = true)
    (hno : (fs.isfile (fs.realpath path) && st.file_filter.is_match (fs.realpath path)) = false) :
    add_file fs st path root = .ok (postPolicy fs st d) := by
  unfold add_file
  rw [show get_abspath fs path false true = .ok (fs.realpath path) from by
    simp [get_abspath, hex]]
  simp only [bind_ok_pe]
  rw [if_neg (by simp [hno])]
  simp only [pure_pe, bind_ok_pe]
  exact auto_export_eq fs st d hd

/-- Witness for C5_amended: add_file of a directory over an empty
tracked map at concrete values. -/
theorem C5_witness :
    add_file fs5 st5Clean "/d" "/" = .ok (postPolicy fs5 st5Clean []) :=
  C5_amended fs5 st5Clean "/d" "/" [] rfl rfl rfl

/-- Filesystem with no files or directories at all. -/
def fs6 : FS :=
  { isfile := fun _ => false, isdir := fun _ => false,
    realpath := id, abspath := id, size := fun _ => 0, mtime := fun _ => 0,
    listdir := fun _ => [], walk := fun _ => [], relpath := fun p _ => some p }

/-- C6 fails as stated: remove_file on a path that was never tracked
raises nothing, but with auto_save and auto_clean enabled the
triggered export drops a stale entry, so the in-memory document
changes. -/
theorem C6_counterexample :
    st5.hasTracked (format_abspath_normalize fs6 "/nope") = false ∧
    st5.hasTracked "/r/stale" = true ∧
    remove_file fs6 st5 "/nope" = .ok st5Clean ∧
    st5Clean.hasTracked "/r/stale" = false :=
  ⟨rfl, rfl, rfl, rfl⟩

/-- C6 (amended): remove_file on a path whose canonical form is not a
tracked key raises nothing and leaves the document unchanged except
that, when auto_save and auto_clean are both enabled, the triggered
export drops entries whose path no longer names a regular file. -/
theorem C6_amended (fs : FS) (st : TrackerState) (path : String) (d : PyDict)
    (hd : st.trackedE = .ok d)
    (hab : dictContains d (.kstr (format_abspath_normalize fs path)) = false) :
    remove_file fs st path = .ok (postPolicy fs st d) := by
  unfold remove_file
  simp only [hd, bind_ok_pe]
  rw [dictPop_of_not_contains _ _ hab, setTracked_self hd]
  exact auto_export_eq fs st d hd

/-- Witness for C6_amended: remove_file of an untracked path from a
state with auto policies off would be trivial, so the concrete run
keeps them on. -/
theorem C6_witness :
    remove_file fs6 st5 "/nope" = .ok (postPolicy fs6 st5
      [(.kstr "/r/stale", .pydict [(.kstr "path", .pystr "/r/stale")])]) :=
  C6_amended fs6 st5 "/nope" _ rfl rfl

/-- Filesystem where the relative name a canonicalizes to /r/a but
nothing exists on disk. -/
def fs7 : FS :=
  { isfile := fun _ => false, isdir := fun _ => false,
    realpath := fun p => if p == "a" then "/r/a" else p, abspath := id,
    size := fun _ => 0, mtime := fun _ => 0,
    listdir := fun _ => [], walk := fun _ => [], relpath := fun p _ => some p }

/-- Tracker state tracking /r/a, with auto_save off so the pop is the
only possible mutation. -/
def st7 : TrackerState :=
  { config := [(.kstr "tracked", .pydict [(.kstr "/r/a", .pydict [])])],
    config_path := "c", auto_save := false, auto_clean := true, file_filter := ffNone }

/-- C7 fails as stated: when the supplied path no longer exists on
disk, the format_abspath decorator leaves it unresolved, so a relative
path that denotes the tracked entry /r/a (its canonical form is the
tracked key) fails to remove that entry. -/
theorem C7_counterexample :
    fs7.realpath "a" = "/r/a" ∧
    (fs7.isfile "a" || fs7.isdir "a") = false ∧
    st7.hasTracked "/r/a" = true ∧
    remove_file fs7 st7 "a" = .ok st7 ∧
    st7.hasTracked "/r/a" = true :=
  ⟨rfl, rfl, rfl, rfl, rfl⟩

/-- C7 (amended): remove_file canonicalizes the supplied path only
when it currently names an existing file or directory; otherwise the
string is used verbatim.  The entry under the resulting key is removed
when present, and the auto policies may additionally drop stale
entries. -/
theorem C7_amended (fs : FS) (st : TrackerState) (path : String) (d : PyDict)
    (hd : st.trackedE = .ok d) :
    remove_file fs st path =
      .ok (postPolicy fs
        (st.setTracked (dictPop d (.kstr (format_abspath_normalize fs path))))
        (dictPop d (.kstr (format_abspath_normalize fs path)))) ∧
    ((fs.isfile path || fs.isdir path) = true →
      format_abspath_normalize fs path = fs.realpath path) ∧
    ((fs.isfile path || fs.isdir path) = false →
      format_abspath_normalize fs path = path) := by
  refine ⟨?_, fun h => ?_, fun h => ?_⟩
  · unfold remove_file
    simp only [hd, bind_ok_pe]
    exact auto_export_eq fs _ _ (trackedE_setTracked st _)
  · unfold format_abspath_normalize
    rw [if_pos h]
  · unfold format_abspath_normalize
    rw [if_neg (by simp [h])]

/-- Witness for C7_amended: the concrete run of the counterexample
state, showing the pop applied to the verbatim key. -/
theorem C7_witness :
    remove_file fs7 st7 "a" =
      .ok (postPolicy fs7
        (st7.setTracked (dictPop [(.kstr "/r/a", .pydict [])]
          (.kstr (format_abspath_normalize fs7 "a"))))
        (dictPop [(.kstr "/r/a", .pydict [])]
          (.kstr (format_abspath_normalize fs7 "a")))) :=
  (C7_amended fs7 st7 "a" [(.kstr "/r/a", .pydict [])] rfl).1

/-- Filesystem with one root directory and nothing else. -/
def fs9 : FS :=
  { isfile := fun _ => false, isdir := fun p => p == "/r",
    realpath := id, abspath := id, size := fun _ => 0, mtime := fun _ => 0,
    listdir := fun _ => [], walk := fun _ => [], relpath := fun p _ => some p }

/-- C9 fails as stated: a path that does not resolve to an existing
file or directory makes is_outside_root raise InvalidPathError — the
resolution failure is not turned into the answer true; only the
common-ancestor computation's failure is caught. -/
theorem C9_counterexample :
    (fs9.isfile "nope" || fs9.isdir "nope") = false ∧
    is_outside_root fs9 "nope" "/r" = .error .invalidPathError :=
  ⟨rfl, rfl⟩

/-- C9 (amended): on a path and root that both resolve,
is_outside_root returns true exactly when the canonical common
ancestor differs from the canonical root, and a failure of the
common-ancestor computation (such as a cross-volume pair) yields true
rather than raising; a path or a root that does not resolve raises
InvalidPathError instead — the first get_abspath raises on a
nonexistent path, and even with an existing path the second
get_abspath raises on a nonexistent root. -/
theorem C9_amended (fs : FS) (path root : String)
    (hp : (fs.isfile path || fs.isdir path) = true)
    (hr : (fs.isfile root || fs.isdir root) = true) :
    is_outside_root fs path root =
      (match commonpath2 (fs.realpath path) (fs.realpath root) with
       | .ok common => .ok (common ≠ fs.realpath root)
       | .error _ => .ok true) ∧
    (∀ q, (fs.isfile q || fs.isdir q) = false →
      is_outside_root fs q root = .error .invalidPathError) ∧
    (∀ q, (fs.isfile q || fs.isdir q) = false →
      is_outside_root fs path q = .error .invalidPathError) := by
  refine ⟨?_, ?_, ?_⟩
  · unfold is_outside_root
    rw [show get_abspath fs path false true = .ok (fs.realpath path) from by
      simp [get_abspath, hp]]
    rw [show get_abspath fs root false true = .ok (fs.realpath root) from by
      simp [get_abspath, hr]]
    simp only [bind_ok_pe]
  · intro q hq
    unfold is_outside_root
    rw [show get_abspath fs q false true = .error .invalidPathError from by
      simp [get_abspath, hq]]
    rfl
  · intro q hq
    unfold is_outside_root
    rw [show get_abspath fs path false true = .ok (fs.realpath path) from by
      simp [get_abspath, hp]]
    simp only [bind_ok_pe]
    rw [show get_abspath fs q false true = .error .invalidPathError from by
      simp [get_abspath, hq]]
    rfl

/-- Witness for C9_amended: the one-directory filesystem, a path and
root that exist, and nonexistent replacements for each of the two
argument positions in the raising branches. -/
theorem C9_witness :
    is_outside_root fs9 "/r" "/r" =
      (match commonpath2 (fs9.realpath "/r") (fs9.realpath "/r") with
       | .ok common => .ok (common ≠ fs9.realpath "/r")
       | .error _ => .ok true) ∧
    (∀ q, (fs9.isfile q || fs9.isdir q) = false →
      is_outside_root fs9 q "/r" = .error .invalidPathError) ∧
    (∀ q, (fs9.isfile q || fs9.isdir q) = false →
      is_outside_root fs9 "/r" q = .error .invalidPathError) :=
  C9_amended fs9 "/r" "/r" rfl rfl

theorem safe_read_attempts_zero (env : Nat → ReadResult) (entry : PyDict) (i : Nat) :
    safe_read_attempts env entry i 0 = (.error .runtimeError, []) := rfl

theorem safe_read_attempts_oserror (env : Nat → ReadResult) (entry : PyDict)
    (i fuel : Nat) (h : env i = .oserror) :
    safe_read_attempts env entry i (fuel + 1) = (.error .ioError, []) := by
  conv_lhs => rw [safe_read_attempts]
  rw [h]

theorem safe_read_attempts_content (env : Nat → ReadResult) (entry : PyDict)
    (i fuel : Nat) (v : PyVal) (h : env i = .content v) :
    safe_read_attempts env entry i (fuel + 1) =
      (validate_config_structure v get_default_config, []) := by
  conv_lhs => rw [safe_read_attempts]
  rw [h]
  show (match validate_config_structure v get_default_config with
    | Except.ok cfg => ((Except.ok cfg : Except PyErr PyDict), ([] : List PyDict))
    | Except.error e => (Except.error e, [])) =
    (validate_config_structure v get_default_config, [])
  cases validate_config_structure v get_default_config <;> rfl

/-- Sample environment: the first read is malformed, every later read
yields the empty JSON object. -/
def env2 : Nat → ReadResult :=
  fun i => if i = 0 then .malformed else .content (.pydict [])

/-- Handler configuration that differs from the default template: its
tracked map already holds an entry. -/
def entry2 : PyDict := [(.kstr "tracked", .pydict [(.kstr "x", .pydict [])])]

/-- C2 fails as stated in one respect: the recovery overwrite does not
write the default template — it writes the handler's current in-memory
configuration (create_template_config serializes self.config), which
can differ from the template once a previous successful read stored a
validated document.  Here the single recovery write is entry2, whose
tracked map contains the key x, which the default template's tracked
map lacks. -/
theorem C2_counterexample :
    safe_read_config env2 entry2 3 = (.ok get_default_config, [entry2]) ∧
    cfgTrackedHasKey entry2 "x" = true ∧
    cfgTrackedHasKey get_default_config "x" = false :=
  ⟨rfl, rfl, rfl⟩

/-- C2 (amended): safe_read_config(retries=n) attempts a read and
validation up to n times; each parse error overwrites the on-disk
document with the handler's current in-memory configuration (the
default template only when no earlier successful read replaced it) and
retries; after n parse-error attempts it raises the fatal
RuntimeError; a read yielding any other I/O error, or a value whose
validation fails, aborts immediately with that error, without retry
and without a further overwrite. -/
theorem C2_amended (env : Nat → ReadResult) (entry t : PyDict)
    (htr : dictLookup entry (.kstr "tracked") = some (.pydict t))
    (n j : Nat) (hm : ∀ i, i < j → env i = .malformed) :
    (n ≤ j →
      safe_read_config env entry n = (.error .runtimeError, List.replicate n entry)) ∧
    (j < n → env j = .oserror →
      safe_read_config env entry n = (.error .ioError, List.replicate j entry)) ∧
    (∀ v, j < n → env j = .content v →
      safe_read_config env entry n =
        (validate_config_structure v get_default_config, List.replicate j entry)) := by
  have hw : create_template_config_written entry = .ok entry :=
    create_template_config_written_self htr
  refine ⟨?_, ?_, ?_⟩
  · intro hnj
    unfold safe_read_config
    rw [safe_read_attempts_skip env entry entry hw n 0 n le_rfl
      (fun s hs => by rw [Nat.zero_add]; exact hm s (by omega))]
    rw [Nat.sub_self, safe_read_attempts_zero]
    simp
  · intro hjn hos
    unfold safe_read_config
    rw [safe_read_attempts_skip env entry entry hw j 0 n (by omega)
      (fun s hs => by rw [Nat.zero_add]; exact hm s (by omega))]
    obtain ⟨m, hmn⟩ : ∃ m, n - j = m + 1 := ⟨n - j - 1, by omega⟩
    rw [hmn, safe_read_attempts_oserror env entry (0 + j) m (by simpa using hos)]
    simp
  · intro v hjn hcv
    unfold safe_read_config
    rw [safe_read_attempts_skip env entry entry hw j 0 n (by omega)
      (fun s hs => by rw [Nat.zero_add]; exact hm s (by omega))]
    obtain ⟨m, hmn⟩ : ∃ m, n - j = m + 1 := ⟨n - j - 1, by omega⟩
    rw [hmn, safe_read_attempts_content env entry (0 + j) m v (by simpa using hcv)]
    simp

/-- Witness for C2_amended: the concrete environment env2 with one
malformed read, a successful read at attempt index 1, and three
allowed attempts. -/
theorem C2_witness :
    safe_read_config env2 entry2 3 =
      (validate_config_structure (.pydict []) get_default_config,
        List.replicate 1 entry2) :=
  (C2_amended env2 entry2 [(.kstr "x", .pydict [])] rfl 3 1
    (fun i hi => by
      have h0 : i = 0 := by omega
      rw [h0]
      rfl)).2.2 (.pydict []) (by omega) rfl

theorem postPolicy_trackedE (fs : FS) (st : TrackerState) (d : PyDict)
    (hd : st.trackedE = .ok d) :
    (postPolicy fs st d).trackedE =
      .ok (if st.auto_save && st.auto_clean then
        d.filter (fun kv => keyIsFile fs kv.1) else d) := by
  unfold postPolicy
  by_cases hc : (st.auto_save && st.auto_clean) = true
  · rw [if_pos hc, if_pos hc]
    exact trackedE_setTracked st _
  · rw [if_neg hc, if_neg hc]
    exact hd

theorem postPolicy_file_filter (fs : FS) (st : TrackerState) (d : PyDict) :
    (postPolicy fs st d).file_filter = st.file_filter := by
  unfold postPolicy
  split <;> rfl

/-- Shape of a successful add_file on an existing, filter-accepted
regular file: the collected record is stored under its own canonical
path, and the auto-export policy transformation is applied. -/
theorem add_file_ok (fs : FS) (st : TrackerState) (p root abs : String) (d : PyDict)
    (hd : st.trackedE = .ok d)
    (hp : fs.isfile p = true) (hr : fs.realpath p = abs)
    (ha : fs.isfile abs = true) (hid : fs.realpath abs = abs)
    (hroot : (fs.isfile root || fs.isdir root) = true)
    (hm : st.file_filter.is_match abs = true) :
    ∃ i : FileInfo, get_file_info fs abs root = .ok i ∧
      i.path = abs ∧ i.size = fs.size abs ∧ i.mtime = fs.mtime abs ∧
      add_file fs st p root =
        .ok (postPolicy fs (st.setTracked (dictSet d (.kstr abs) i.toPy))
              (dictSet d (.kstr abs) i.toPy)) := by
  have habs : get_abspath fs abs false true = .ok abs := by
    simp [get_abspath, ha, hid]
  have hrt : get_abspath fs root false true = .ok (fs.realpath root) := by
    simp [get_abspath, hroot]
  have hior : is_outside_root fs abs root =
      .ok (match commonpath2 abs (fs.realpath root) with
           | .ok c => decide (c ≠ fs.realpath root)
           | .error _ => true) := by
    unfold is_outside_root
    rw [habs, hrt]
    simp only [bind_ok_pe]
    cases commonpath2 abs (fs.realpath root) <;> rfl
  refine ⟨⟨abs, get_rel_path fs abs root, fs.size abs, fs.mtime abs,
    match commonpath2 abs (fs.realpath root) with
    | .ok c => decide (c ≠ fs.realpath root)
    | .error _ => true⟩, ?_, rfl, rfl, rfl, ?_⟩
  · unfold get_file_info
    rw [habs]
    simp only [bind_ok_pe, hior]
  · unfold add_file
    rw [show get_abspath fs p false true = .ok abs from by simp [get_abspath, hp, hr]]
    simp only [bind_ok_pe]
    rw [if_pos (show (fs.isfile abs && st.file_filter.is_match abs) = true from by
      simp [ha, hm])]
    unfold get_file_info
    rw [habs]
    simp only [bind_ok_pe, hior, hd, pure_pe]
    exact auto_export_eq fs _ _ (trackedE_setTracked st _)

/-- C8: add_file is idempotent on an existing, filter-accepted regular
file — after adding the same path twice (the filesystem may change in
between, as long as the path still resolves to the same canonical
file), the tracked mapping has exactly one entry for that file, and
that entry carries the size and mtime read by the second call. -/
theorem C8_thm (fs1 fs2 : FS) (st : TrackerState) (p root abs : String) (d : PyDict)
    (hd : st.trackedE = .ok d) (hnd : (dictKeys d).Nodup)
    (hp1 : fs1.isfile p = true) (hp2 : fs2.isfile p = true)
    (hr1 : fs1.realpath p = abs) (hr2 : fs2.realpath p = abs)
    (ha1 : fs1.isfile abs = true) (ha2 : fs2.isfile abs = true)
    (hid1 : fs1.realpath abs = abs) (hid2 : fs2.realpath abs = abs)
    (hroot1 : (fs1.isfile root || fs1.isdir root) = true)
    (hroot2 : (fs2.isfile root || fs2.isdir root) = true)
    (hm : st.file_filter.is_match abs = true) :
    ∃ (st1 st2 : TrackerState) (i2 : FileInfo) (t2 : PyDict),
      add_file fs1 st p root = .ok st1 ∧
      add_file fs2 st1 p root = .ok st2 ∧
      get_file_info fs2 abs root = .ok i2 ∧
      st2.trackedE = .ok t2 ∧
      t2.filter (fun kv => kv.1 == PyKey.kstr abs) = [(.kstr abs, i2.toPy)] ∧
      i2.size = fs2.size abs ∧ i2.mtime = fs2.mtime abs := by
  obtain ⟨i1, _, _, _, _, hadd1⟩ :=
    add_file_ok fs1 st p root abs d hd hp1 hr1 ha1 hid1 hroot1 hm
  set D1 := dictSet d (.kstr abs) i1.toPy with hD1def
  set st1 := postPolicy fs1 (st.setTracked D1) D1 with hst1def
  set t1 := (if st.auto_save && st.auto_clean then
    D1.filter (fun kv => keyIsFile fs1 kv.1) else D1) with ht1def
  have hte1 : st1.trackedE = .ok t1 :=
    postPolicy_trackedE fs1 _ _ (trackedE_setTracked st D1)
  have hnd1 : (dictKeys t1).Nodup := by
    rw [ht1def]
    split
    · exact nodup_filter (nodup_dictSet hnd)
    · exact nodup_dictSet hnd
  have hm1 : st1.file_filter.is_match abs = true := by
    rw [hst1def, postPolicy_file_filter]
    exact hm
  obtain ⟨i2, hgfi2, _, hsz2, hmt2, hadd2⟩ :=
    add_file_ok fs2 st1 p root abs t1 hte1 hp2 hr2 ha2 hid2 hroot2 hm1
  set D2 := dictSet t1 (.kstr abs) i2.toPy with hD2def
  set st2 := postPolicy fs2 (st1.setTracked D2) D2 with hst2def
  have hte2 : st2.trackedE = .ok (if st1.auto_save && st1.auto_clean then
      D2.filter (fun kv => keyIsFile fs2 kv.1) else D2) :=
    postPolicy_trackedE fs2 _ _ (trackedE_setTracked st1 D2)
  have hnd2 : (dictKeys D2).Nodup := nodup_dictSet hnd1
  have hlook2 : dictLookup D2 (.kstr abs) = some i2.toPy := dictLookup_set_self _ _ _
  refine ⟨st1, st2, i2, _, hadd1, hadd2, hgfi2, hte2, ?_, hsz2, hmt2⟩
  by_cases hb : (st1.auto_save && st1.auto_clean) = true
  · rw [if_pos hb]
    exact filter_key_of_nodup (nodup_filter hnd2)
      (dictLookup_filter hlook2 (show keyIsFile fs2 (.kstr abs) = true from ha2))
  · rw [if_neg hb]
    exact filter_key_of_nodup hnd2 hlook2

/-- First-call filesystem for the C8 witness. -/
def fs81 : FS :=
  { isfile := fun p => p == "/f", isdir := fun p => p == "/",
    realpath := id, abspath := id, size := fun _ => 5, mtime := fun _ => 100,
    listdir := fun _ => [], walk := fun _ => [], relpath := fun p _ => some p }

/-- Second-call filesystem: same file, newer metadata. -/
def fs82 : FS :=
  { isfile := fun p => p == "/f", isdir := fun p => p == "/",
    realpath := id, abspath := id, size := fun _ => 6, mtime := fun _ => 200,
    listdir := fun _ => [], walk := fun _ => [], relpath := fun p _ => some p }

/-- Tracker state with an empty tracked map for the C8 witness. -/
def stC8 : TrackerState :=
  { config := [(.kstr "tracked", .pydict [])], config_path := "c",
    auto_save := true, auto_clean := true, file_filter := ffNone }

/-- Witness for C8_thm at the concrete two-filesystem run. -/
theorem C8_witness :
    ∃ (st1 st2 : TrackerState) (i2 : FileInfo) (t2 : PyDict),
      add_file fs81 stC8 "/f" "/" = .ok st1 ∧
      add_file fs82 st1 "/f" "/" = .ok st2 ∧
      get_file_info fs82 "/f" "/" = .ok i2 ∧
      st2.trackedE = .ok t2 ∧
      t2.filter (fun kv => kv.1 == PyKey.kstr "/f") = [(.kstr "/f", i2.toPy)] ∧
      i2.size = fs82.size "/f" ∧ i2.mtime = fs82.mtime "/f" :=
  C8_thm fs81 fs82 stC8 "/f" "/" "/f" [] rfl List.nodup_nil
    rfl rfl rfl rfl rfl rfl rfl rfl rfl rfl rfl

end FileSyncer
